import Mathlib

/-!
Verification of the usb-over-ip network transport and URB exchange engine.

The definitions below are a shallow embedding of the C sources:
  src/protocol/vusb_protocol.h   (framing codec, wire structures)
  src/server/vusb_server.c       (session receive loop, message handlers)
  src/server/vusb_server_urb.c   (server pending-URB table)
  src/driver/vusb_device.c       (device registry, driver pending-URB list)
  src/driver/vusb_ioctl.c        (ioctl handlers)
  src/driver/vusb_urb.c          (URB entry handling)
  src/client/vusb_client_enhanced.c (client receive loop, completion sender)
  src/client/vusb_client_urb.c   (client URB dispatcher)

Machine integers are modelled as Nat with explicit bounds where overflow
matters; byte buffers are lists of Nat values below 256; packed
little-endian structs are modelled both as Lean structures (field view)
and, for the framing claims, as explicit byte lists.  Logging, spin
locks, statistics counters and allocation failure branches are omitted;
external collaborators (the WDF request object, the WinUSB backend, the
socket) are modelled as explicit inputs/outputs of the functions that
touch them.
-/

namespace Vusb

/-! Protocol constants, from src/protocol/vusb_protocol.h. -/

def VUSB_PROTOCOL_MAGIC : Nat := 0x56555342

def VUSB_PROTOCOL_VERSION : Nat := 0x0100

def VUSB_MAX_PACKET_SIZE : Nat := 65536

def VUSB_MAX_DEVICES : Nat := 16

def VUSB_CMD_CONNECT : Nat := 0x0001

def VUSB_CMD_DISCONNECT : Nat := 0x0002

def VUSB_CMD_PING : Nat := 0x0003

def VUSB_CMD_PONG : Nat := 0x0004

def VUSB_CMD_DEVICE_ATTACH : Nat := 0x0010

def VUSB_CMD_DEVICE_DETACH : Nat := 0x0011

def VUSB_CMD_DEVICE_LIST : Nat := 0x0012

def VUSB_CMD_SUBMIT_URB : Nat := 0x0020

def VUSB_CMD_URB_COMPLETE : Nat := 0x0021

def VUSB_CMD_CANCEL_URB : Nat := 0x0022

def VUSB_STATUS_SUCCESS : Nat := 0x0000

def VUSB_STATUS_ERROR : Nat := 0x0002

def VUSB_STATUS_CANCELED : Nat := 0x0005

def VUSB_STATUS_NO_DEVICE : Nat := 0x0006

def VUSB_STATUS_NO_MEMORY : Nat := 0x0008

def VUSB_DIR_OUT : Nat := 0

def VUSB_DIR_IN : Nat := 1

def VUSB_TRANSFER_CONTROL : Nat := 0

def VUSB_TRANSFER_ISOCHRONOUS : Nat := 1

def VUSB_TRANSFER_BULK : Nat := 2

def VUSB_TRANSFER_INTERRUPT : Nat := 3

def VUSB_STATE_ATTACHED : Nat := 1

/-! NT status codes used by the driver sources. -/

def STATUS_SUCCESS : Nat := 0x00000000

def STATUS_UNSUCCESSFUL : Nat := 0xC0000001

def STATUS_INVALID_PARAMETER : Nat := 0xC000000D

def STATUS_DEVICE_NOT_CONNECTED : Nat := 0xC000009D

def STATUS_CANCELLED : Nat := 0xC0000120

def STATUS_TOO_MANY_NODES : Nat := 0xC000020E

def STATUS_NOT_FOUND : Nat := 0xC0000225

def STATUS_BUFFER_TOO_SMALL : Nat := 0xC0000023

/-! Wire structures (packed, little-endian), from vusb_protocol.h. -/

/-- VUSB_HEADER: the 16-byte frame header every message starts with. -/
structure VUSB_HEADER where
  Magic : Nat
  Version : Nat
  Command : Nat
  Length : Nat
  Sequence : Nat
deriving DecidableEq

/-- Size in bytes of the packed VUSB_HEADER struct. -/
def sizeof_VUSB_HEADER : Nat := 16

/-- VusbInitHeader from vusb_protocol.h: fills a header with the protocol
magic, the protocol version and the given command, payload length and
sequence number. -/
def VusbInitHeader (command length sequence : Nat) : VUSB_HEADER :=
  { Magic := VUSB_PROTOCOL_MAGIC
    Version := VUSB_PROTOCOL_VERSION
    Command := command
    Length := length
    Sequence := sequence }

/-- VusbValidateHeader from vusb_protocol.h: accepts a header iff magic
and version both match the protocol constants. -/
def VusbValidateHeader (h : VUSB_HEADER) : Bool :=
  decide (h.Magic = VUSB_PROTOCOL_MAGIC) && decide (h.Version = VUSB_PROTOCOL_VERSION)

/-! Byte-level view of the packed header.  Bytes are Nat values < 256;
the header is laid out little-endian with no padding, exactly as the
pragma pack(1) struct in vusb_protocol.h. -/

/-- Little-endian encoding of a 16-bit field. -/
def le16 (n : Nat) : List Nat :=
  [n % 256, n / 256 % 256]

/-- Little-endian encoding of a 32-bit field. -/
def le32 (n : Nat) : List Nat :=
  [n % 256, n / 256 % 256, n / 65536 % 256, n / 16777216 % 256]

/-- Serialise a VUSB_HEADER to its 16 wire bytes. -/
def encodeHeader (h : VUSB_HEADER) : List Nat :=
  le32 h.Magic ++ le16 h.Version ++ le16 h.Command ++ le32 h.Length ++ le32 h.Sequence

/-- A full frame on the wire: the 16 header bytes followed by the payload
bytes. -/
def encodeFrame (h : VUSB_HEADER) (payload : List Nat) : List Nat :=
  encodeHeader h ++ payload

/-- Read exactly 16 bytes from the stream and reassemble the header
fields (little-endian, packed layout of VUSB_HEADER); returns the header
and the remaining stream, or none when fewer than 16 bytes are available
(short read: the receive loops treat this as connection closed). -/
def decodeHeader : List Nat → Option (VUSB_HEADER × List Nat)
  | b0 :: b1 :: b2 :: b3 :: b4 :: b5 :: b6 :: b7 ::
    b8 :: b9 :: b10 :: b11 :: b12 :: b13 :: b14 :: b15 :: rest =>
      some ({ Magic := b0 + 256 * b1 + 65536 * b2 + 16777216 * b3
              Version := b4 + 256 * b5
              Command := b6 + 256 * b7
              Length := b8 + 256 * b9 + 65536 * b10 + 16777216 * b11
              Sequence := b12 + 256 * b13 + 65536 * b14 + 16777216 * b15 }, rest)
  | _ => none

/-! Pending-URB tables (server vusb_server_urb.c, driver vusb_device.c). -/

/-- Shared shape of the two pending-list walks (ServerUrbComplete's while
loop and VusbFindUrb's Flink traversal): return the first node whose key
matches together with the list with that node unlinked; when no node
matches, the list comes back unchanged. -/
def findRemove {α : Type} (key : α → Nat) : List α → Nat → Option α × List α
  | [], _ => (none, [])
  | curr :: rest, k =>
    if key curr = k then (some curr, rest)
    else
      let r := findRemove key rest k
      (r.1, curr :: r.2)

/-- SERVER_PENDING_URB (vusb_server_urb.h): one node of the server's
singly linked pending-URB list; Client identifies the owning client
connection by its session id. -/
structure SERVER_PENDING_URB where
  UrbId : Nat
  DeviceId : Nat
  ClientDeviceId : Nat
  Client : Nat
deriving DecidableEq

/-- VUSB_URB_COMPLETION (vusb_ioctl.h): the input record of the
IOCTL_VUSB_COMPLETE_URB call, with the trailing IN data bytes modelled
as the Data list. -/
structure VUSB_URB_COMPLETION where
  DeviceId : Nat
  UrbId : Nat
  SequenceNumber : Nat
  Status : Nat
  ActualLength : Nat
  Data : List Nat
deriving DecidableEq

/-- ServerUrbComplete (vusb_server_urb.c): walk the pending list for the
first node whose UrbId matches; when none is found return -1 with the
list unchanged and send nothing to the driver; otherwise unlink the
node, build the VUSB_URB_COMPLETION passed to IOCTL_VUSB_COMPLETE_URB
(DeviceId is taken from the unlinked node, SequenceNumber is 0) and
return 0. -/
def ServerUrbComplete (pending : List SERVER_PENDING_URB)
    (urbId status actualLength : Nat) (data : List Nat) :
    Int × List SERVER_PENDING_URB × Option VUSB_URB_COMPLETION :=
  match findRemove SERVER_PENDING_URB.UrbId pending urbId with
  | (none, _) => (-1, pending, none)
  | (some curr, rest) =>
      (0, rest,
        some { DeviceId := curr.DeviceId, UrbId := urbId, SequenceNumber := 0,
               Status := status, ActualLength := actualLength,
               Data := data.take actualLength })

/-- VUSB_URB_ENTRY (vusb_driver.h): one node of the driver's pending-URB
list.  The TransferBuffer pointer is modelled by the flag HasBuffer, the
attached WDF request by HasRequest. -/
structure VUSB_URB_ENTRY where
  UrbId : Nat
  SequenceNumber : Nat
  DeviceId : Nat
  HasRequest : Bool
  HasBuffer : Bool
  EndpointAddress : Nat
  TransferType : Nat
  Direction : Nat
  TransferFlags : Nat
  TransferBufferLength : Nat
deriving DecidableEq

/-- VusbFindUrb (vusb_device.c): walk PendingUrbList from the head and
unlink the first entry whose UrbId matches. -/
def VusbFindUrb (pending : List VUSB_URB_ENTRY) (urbId : Nat) :
    Option VUSB_URB_ENTRY × List VUSB_URB_ENTRY :=
  findRemove VUSB_URB_ENTRY.UrbId pending urbId

/-! Driver device registry and URB completion (vusb_device.c,
vusb_ioctl.c). -/

/-- VUSB_DEVICE_INFO (vusb_protocol.h): the fixed-size summary record
exchanged on the wire; the three 64-byte strings are modelled as byte
lists. -/
structure VUSB_DEVICE_INFO where
  DeviceId : Nat
  VendorId : Nat
  ProductId : Nat
  DeviceClass : Nat
  DeviceSubClass : Nat
  DeviceProtocol : Nat
  Speed : Nat
  NumConfigurations : Nat
  NumInterfaces : Nat
  Manufacturer : List Nat
  Product : List Nat
  SerialNumber : List Nat
deriving DecidableEq

/-- VUSB_VIRTUAL_DEVICE (vusb_driver.h): one attached virtual device. -/
structure VUSB_VIRTUAL_DEVICE where
  DeviceId : Nat
  PortNumber : Nat
  State : Nat
  DeviceInfo : VUSB_DEVICE_INFO
  Descriptors : List Nat
deriving DecidableEq

/-- VUSB_DEVICE_CONTEXT (vusb_driver.h): the driver state the claims
touch — the 16-slot device array, the device count bound, and the
pending-URB list with its id counters. -/
structure VUSB_DEVICE_CONTEXT where
  MaxDevices : Nat
  DeviceCount : Nat
  Devices : List (Option VUSB_VIRTUAL_DEVICE)
  PendingUrbList : List VUSB_URB_ENTRY
  NextUrbId : Nat
  NextSequence : Nat
deriving DecidableEq

/-- Driver device context right after VusbEvtDeviceAdd zeroes it and
sets MaxDevices (vusb_driver.c): all 16 slots empty, no pending URBs. -/
def VusbDeviceContextInit : VUSB_DEVICE_CONTEXT :=
  { MaxDevices := VUSB_MAX_DEVICES
    DeviceCount := 0
    Devices := List.replicate VUSB_MAX_DEVICES none
    PendingUrbList := []
    NextUrbId := 0
    NextSequence := 0 }

/-- The slot-assignment block of VusbCreateVirtualDevice: the device
stored into free slot `slot` gets DeviceId = PortNumber = slot + 1 and
state ATTACHED. -/
def mkVirtualDevice (slot : Nat) (info : VUSB_DEVICE_INFO) (descriptors : List Nat) :
    VUSB_VIRTUAL_DEVICE :=
  { DeviceId := slot + 1
    PortNumber := slot + 1
    State := VUSB_STATE_ATTACHED
    DeviceInfo := info
    Descriptors := descriptors }

/-- The for-loop of VusbCreateVirtualDevice over Devices[slot]: find the
first NULL slot, store the new device there and report slot + 1; none
when every slot is taken. -/
def vusbSlotScan (devices : List (Option VUSB_VIRTUAL_DEVICE))
    (info : VUSB_DEVICE_INFO) (descriptors : List Nat) (slot : Nat) :
    Option (List (Option VUSB_VIRTUAL_DEVICE) × Nat) :=
  match devices with
  | [] => none
  | none :: rest => some (some (mkVirtualDevice slot info descriptors) :: rest, slot + 1)
  | some d :: rest =>
    match vusbSlotScan rest info descriptors (slot + 1) with
    | none => none
    | some (l, id) => some (some d :: l, id)

/-- VusbCreateVirtualDevice (vusb_device.c): refuse with
STATUS_TOO_MANY_NODES when DeviceCount has reached MaxDevices (or, in
the unreachable fallback, when the slot scan finds no free slot);
otherwise store the new device in the lowest free slot, bump
DeviceCount and return the assigned id.  Result is (new context,
NTSTATUS, assigned DeviceId — 0 on failure). -/
def VusbCreateVirtualDevice (ctx : VUSB_DEVICE_CONTEXT)
    (info : VUSB_DEVICE_INFO) (descriptors : List Nat) :
    VUSB_DEVICE_CONTEXT × Nat × Nat :=
  if ctx.MaxDevices ≤ ctx.DeviceCount then (ctx, STATUS_TOO_MANY_NODES, 0)
  else
    match vusbSlotScan ctx.Devices info descriptors 0 with
    | some (devices2, deviceId) =>
        ({ ctx with Devices := devices2, DeviceCount := ctx.DeviceCount + 1 },
          STATUS_SUCCESS, deviceId)
    | none => (ctx, STATUS_TOO_MANY_NODES, 0)

/-- VusbDestroyVirtualDevice (vusb_device.c): reject ids outside 1..16;
report STATUS_DEVICE_NOT_CONNECTED for an empty slot; otherwise clear
the slot and decrement DeviceCount.  The pending-URB list is not
touched. -/
def VusbDestroyVirtualDevice (ctx : VUSB_DEVICE_CONTEXT) (deviceId : Nat) :
    VUSB_DEVICE_CONTEXT × Nat :=
  if deviceId = 0 ∨ VUSB_MAX_DEVICES < deviceId then (ctx, STATUS_INVALID_PARAMETER)
  else
    match ctx.Devices.getD (deviceId - 1) none with
    | some _ =>
        ({ ctx with Devices := ctx.Devices.set (deviceId - 1) none,
                    DeviceCount := ctx.DeviceCount - 1 }, STATUS_SUCCESS)
    | none => (ctx, STATUS_DEVICE_NOT_CONNECTED)

/-- VusbFindDevice (vusb_device.c): ids outside 1..16 yield nothing;
otherwise return the content of slot DeviceId - 1. -/
def VusbFindDevice (ctx : VUSB_DEVICE_CONTEXT) (deviceId : Nat) :
    Option VUSB_VIRTUAL_DEVICE :=
  if deviceId = 0 ∨ VUSB_MAX_DEVICES < deviceId then none
  else ctx.Devices.getD (deviceId - 1) none

/-- VusbHandleUnplugDevice (vusb_ioctl.c): the IOCTL_VUSB_UNPLUG_DEVICE
handler calls VusbDestroyVirtualDevice and nothing else: in particular
no pending URB of the destroyed device is cancelled or completed. -/
def VusbHandleUnplugDevice (ctx : VUSB_DEVICE_CONTEXT) (deviceId : Nat) :
    VUSB_DEVICE_CONTEXT × Nat :=
  VusbDestroyVirtualDevice ctx deviceId

/-- The observable outcome of WdfRequestCompleteWithInformation plus the
preceding buffer copy in VusbCompleteUrb: Information is the byte count
reported to the submitter, CopiedBytes the number of bytes actually
copied into the URB's transfer buffer. -/
structure WdfCompletionEvent where
  DeviceId : Nat
  UrbId : Nat
  Status : Nat
  Information : Nat
  CopiedBytes : Nat
deriving DecidableEq

/-- VusbCompleteUrb (vusb_device.c): copy at most TransferBufferLength
bytes of completion data into the URB's buffer, then, when a WDF request
is attached, complete it reporting the unclamped ActualLength as its
Information; the entry is freed.  Statistics updates are omitted; the
device context is otherwise unchanged. -/
def VusbCompleteUrb (ctx : VUSB_DEVICE_CONTEXT) (e : VUSB_URB_ENTRY)
    (status actualLength : Nat) (hasData : Bool) :
    VUSB_DEVICE_CONTEXT × Option WdfCompletionEvent :=
  let copied := if hasData ∧ 0 < actualLength ∧ e.HasBuffer
                then min actualLength e.TransferBufferLength else 0
  let ev := if e.HasRequest then
      some { DeviceId := e.DeviceId, UrbId := e.UrbId, Status := status,
             Information := actualLength, CopiedBytes := copied }
    else none
  (ctx, ev)

/-- VusbHandleCompleteUrb (vusb_ioctl.c): look the completion's UrbId up
in the pending list (VusbFindUrb, which unlinks on success); on a miss
return STATUS_NOT_FOUND leaving the state unchanged; on a hit translate
the wire status to an NTSTATUS and hand the entry to VusbCompleteUrb.
The trailing data pointer is valid when ActualLength > 0 and the input
buffer is large enough to hold it. -/
def VusbHandleCompleteUrb (ctx : VUSB_DEVICE_CONTEXT)
    (completion : VUSB_URB_COMPLETION) :
    VUSB_DEVICE_CONTEXT × Nat × Option WdfCompletionEvent :=
  match VusbFindUrb ctx.PendingUrbList completion.UrbId with
  | (none, _) => (ctx, STATUS_NOT_FOUND, none)
  | (some e, rest) =>
      let hasData := decide (0 < completion.ActualLength) &&
        decide (completion.ActualLength ≤ completion.Data.length)
      let nt := if completion.Status = VUSB_STATUS_SUCCESS
                then STATUS_SUCCESS else STATUS_UNSUCCESSFUL
      let r := VusbCompleteUrb { ctx with PendingUrbList := rest } e nt
        completion.ActualLength hasData
      (r.1, STATUS_SUCCESS, r.2)

/-- VusbCancelUrb (vusb_device.c): unlink the URB by id and, when found,
complete it with STATUS_CANCELLED and no data. -/
def VusbCancelUrb (ctx : VUSB_DEVICE_CONTEXT) (urbId : Nat) :
    VUSB_DEVICE_CONTEXT × Option WdfCompletionEvent :=
  match VusbFindUrb ctx.PendingUrbList urbId with
  | (none, _) => (ctx, none)
  | (some e, rest) =>
      VusbCompleteUrb { ctx with PendingUrbList := rest } e STATUS_CANCELLED 0 false

/-! Wire URB messages and the forwarding paths that build them
(vusb_server_urb.c, vusb_urb.c, vusb_server.c,
vusb_client_enhanced.c, vusb_client_urb.c). -/

/-- VUSB_SETUP_PACKET (vusb_protocol.h): the 8-byte control-transfer
setup packet, carried verbatim. -/
structure VUSB_SETUP_PACKET where
  bmRequestType : Nat
  bRequest : Nat
  wValue : Nat
  wIndex : Nat
  wLength : Nat
deriving DecidableEq

/-- Size in bytes of the packed VUSB_URB_SUBMIT struct (16-byte header
plus 32 bytes of URB fields). -/
def sizeof_VUSB_URB_SUBMIT : Nat := 48

/-- Size in bytes of the packed VUSB_PENDING_URB struct of
vusb_ioctl.h. -/
def sizeof_VUSB_PENDING_URB : Nat := 36

/-- Size in bytes of the packed VUSB_URB_COMPLETE struct (16-byte header
plus 20 bytes of completion fields). -/
def sizeof_VUSB_URB_COMPLETE : Nat := 36

/-- Size in bytes of the packed VUSB_CONNECT_RESPONSE struct. -/
def sizeof_VUSB_CONNECT_RESPONSE : Nat := 32

/-- Size in bytes of the packed VUSB_DEVICE_ATTACH_RESPONSE struct. -/
def sizeof_VUSB_DEVICE_ATTACH_RESPONSE : Nat := 24

/-- VUSB_PENDING_URB (vusb_ioctl.h): the record the driver hands to the
server for each URB pulled via IOCTL_VUSB_GET_PENDING_URB; for OUT
transfers the Data list models the trailing transfer-buffer bytes. -/
structure VUSB_PENDING_URB where
  DeviceId : Nat
  UrbId : Nat
  SequenceNumber : Nat
  EndpointAddress : Nat
  TransferType : Nat
  Direction : Nat
  Reserved : Nat
  TransferFlags : Nat
  TransferBufferLength : Nat
  Interval : Nat
  SetupPacket : VUSB_SETUP_PACKET
  Data : List Nat
deriving DecidableEq

/-- VUSB_URB_SUBMIT (vusb_protocol.h): the SUBMIT_URB wire message
(header plus URB fields; any trailing OUT bytes are carried beside it). -/
structure VUSB_URB_SUBMIT where
  Header : VUSB_HEADER
  DeviceId : Nat
  UrbId : Nat
  EndpointAddress : Nat
  TransferType : Nat
  Direction : Nat
  Reserved : Nat
  TransferFlags : Nat
  TransferBufferLength : Nat
  Interval : Nat
  SetupPacket : VUSB_SETUP_PACKET
deriving DecidableEq

/-- Frame-construction part of ServerUrbForward (vusb_server_urb.c):
sendSize is sizeof(VUSB_URB_SUBMIT) plus the OUT payload when direction
is OUT and the buffer length is positive; the header length is
sendSize - sizeof(VUSB_HEADER), the sequence echoes the driver-assigned
SequenceNumber, and the trailing bytes are copied from the pending URB
exactly when direction is OUT and the buffer length is positive.
Returns (message, trailing bytes, sendSize). -/
def ServerUrbForwardFrame (p : VUSB_PENDING_URB) :
    VUSB_URB_SUBMIT × List Nat × Nat :=
  let sendSize := sizeof_VUSB_URB_SUBMIT +
    (if p.Direction = VUSB_DIR_OUT ∧ 0 < p.TransferBufferLength
     then p.TransferBufferLength else 0)
  let submit : VUSB_URB_SUBMIT :=
    { Header := VusbInitHeader VUSB_CMD_SUBMIT_URB
        (sendSize - sizeof_VUSB_HEADER) p.SequenceNumber
      DeviceId := p.DeviceId
      UrbId := p.UrbId
      EndpointAddress := p.EndpointAddress
      TransferType := p.TransferType
      Direction := p.Direction
      Reserved := 0
      TransferFlags := p.TransferFlags
      TransferBufferLength := p.TransferBufferLength
      Interval := p.Interval
      SetupPacket := p.SetupPacket }
  let trailing := if p.Direction = VUSB_DIR_OUT ∧ 0 < p.TransferBufferLength
                  then p.Data.take p.TransferBufferLength else []
  (submit, trailing, sendSize)

/-- Size computation of VusbUrbBuildPendingResponse (vusb_urb.c): the
response for user mode needs sizeof(VUSB_PENDING_URB) bytes plus the OUT
payload exactly when direction is OUT and the buffer length is positive;
a smaller buffer gets STATUS_BUFFER_TOO_SMALL.  Returns
(NTSTATUS, ActualSize). -/
def VusbUrbBuildPendingResponse (e : VUSB_URB_ENTRY) (bufferSize : Nat) :
    Nat × Nat :=
  let requiredSize := sizeof_VUSB_PENDING_URB +
    (if e.Direction = VUSB_DIR_OUT ∧ 0 < e.TransferBufferLength
     then e.TransferBufferLength else 0)
  if bufferSize < requiredSize then (STATUS_BUFFER_TOO_SMALL, requiredSize)
  else (STATUS_SUCCESS, requiredSize)

/-- VUSB_CONNECT_RESPONSE (vusb_protocol.h). -/
structure VUSB_CONNECT_RESPONSE where
  Header : VUSB_HEADER
  Status : Nat
  ServerVersion : Nat
  Capabilities : Nat
  SessionId : Nat
deriving DecidableEq

/-- Response built by VusbServerHandleConnect (vusb_server.c): command
CONNECT, status SUCCESS, server version 0x00010000, and the sequence of
the triggering request header. -/
def VusbServerHandleConnect (sessionId : Nat) (reqHeader : VUSB_HEADER) :
    VUSB_CONNECT_RESPONSE :=
  { Header := VusbInitHeader VUSB_CMD_CONNECT
      (sizeof_VUSB_CONNECT_RESPONSE - sizeof_VUSB_HEADER) reqHeader.Sequence
    Status := VUSB_STATUS_SUCCESS
    ServerVersion := 0x00010000
    Capabilities := 0
    SessionId := sessionId }

/-- VUSB_DEVICE_ATTACH_RESPONSE (vusb_protocol.h). -/
structure VUSB_DEVICE_ATTACH_RESPONSE where
  Header : VUSB_HEADER
  Status : Nat
  DeviceId : Nat
deriving DecidableEq

/-- Response built by VusbServerHandleDeviceAttach (vusb_server.c) after
the plugin attempt: status SUCCESS when the plugin call returned 0, else
ERROR; the header echoes the request sequence. -/
def VusbServerAttachResponse (result : Int) (deviceId : Nat)
    (reqHeader : VUSB_HEADER) : VUSB_DEVICE_ATTACH_RESPONSE :=
  { Header := VusbInitHeader VUSB_CMD_DEVICE_ATTACH
      (sizeof_VUSB_DEVICE_ATTACH_RESPONSE - sizeof_VUSB_HEADER) reqHeader.Sequence
    Status := if result = 0 then VUSB_STATUS_SUCCESS else VUSB_STATUS_ERROR
    DeviceId := deviceId }

/-- VusbServerSendPong (vusb_server.c): a bare PONG header carrying the
sequence the caller passes (the handler passes the PING's sequence). -/
def VusbServerSendPong (sequence : Nat) : VUSB_HEADER :=
  VusbInitHeader VUSB_CMD_PONG 0 sequence

/-- Acknowledgement header built by VusbServerHandleDeviceDetach
(vusb_server.c): command DEVICE_DETACH, no payload, the request's
sequence. -/
def VusbServerDetachAck (reqHeader : VUSB_HEADER) : VUSB_HEADER :=
  VusbInitHeader VUSB_CMD_DEVICE_DETACH 0 reqHeader.Sequence

/-- VUSB_URB_COMPLETE (vusb_protocol.h): the URB_COMPLETE wire message;
the trailing IN bytes are modelled as the Data list. -/
structure VUSB_URB_COMPLETE where
  Header : VUSB_HEADER
  DeviceId : Nat
  UrbId : Nat
  Status : Nat
  ActualLength : Nat
  ErrorCount : Nat
  Data : List Nat
deriving DecidableEq

/-- SendUrbCompletion (vusb_client_enhanced.c): build the URB_COMPLETE
frame for the server.  The header sequence is the client's own counter
pre-incremented (the C writes ++ctx->Base.Sequence); nothing of the
originating SUBMIT_URB's sequence reaches this function.  Returns the
new counter value and the message. -/
def SendUrbCompletion (ctxSequence deviceId urbId status actualLength : Nat)
    (data : List Nat) : Nat × VUSB_URB_COMPLETE :=
  let seq2 := ctxSequence + 1
  let totalSize := sizeof_VUSB_URB_COMPLETE + actualLength
  (seq2,
    { Header := VusbInitHeader VUSB_CMD_URB_COMPLETE
        (totalSize - sizeof_VUSB_HEADER) seq2
      DeviceId := deviceId
      UrbId := urbId
      Status := status
      ActualLength := actualLength
      ErrorCount := 0
      Data := data.take actualLength })

/-- Outcome of the external WinUSB capture backend for one URB
(UsbCaptureFindDevice / UsbCaptureOpenDevice / the transfer call of
vusb_capture.c), supplied as an input to the dispatcher model. -/
structure BackendOutcome where
  found : Bool
  openOk : Bool
  result : Int
  actualLength : Nat
  data : List Nat
deriving DecidableEq

/-- ClientUrbProcess (vusb_client_urb.c): dispatch one SUBMIT_URB to the
capture backend and emit the completion through SendUrbCompletion.
Device-not-found completes with NO_DEVICE, open failure with ERROR;
control transfers report the backend length only on success and IN
direction, bulk/interrupt report it for IN regardless of the result,
isochronous and unknown types fail without calling the backend.
Returns (C return value, new sequence counter, emitted message). -/
def ClientUrbProcess (ctxSequence : Nat) (urbSubmit : VUSB_URB_SUBMIT)
    (backend : BackendOutcome) : Int × Nat × VUSB_URB_COMPLETE :=
  if !backend.found then
    let r := SendUrbCompletion ctxSequence urbSubmit.DeviceId urbSubmit.UrbId
      VUSB_STATUS_NO_DEVICE 0 []
    (-1, r.1, r.2)
  else if !backend.openOk then
    let r := SendUrbCompletion ctxSequence urbSubmit.DeviceId urbSubmit.UrbId
      VUSB_STATUS_ERROR 0 []
    (-1, r.1, r.2)
  else
    let result : Int :=
      if urbSubmit.TransferType = VUSB_TRANSFER_CONTROL ∨
         urbSubmit.TransferType = VUSB_TRANSFER_BULK ∨
         urbSubmit.TransferType = VUSB_TRANSFER_INTERRUPT
      then backend.result else -1
    let responseDataLength :=
      if urbSubmit.TransferType = VUSB_TRANSFER_CONTROL then
        (if backend.result = 0 ∧ urbSubmit.Direction = VUSB_DIR_IN
         then backend.actualLength else 0)
      else if urbSubmit.TransferType = VUSB_TRANSFER_BULK ∨
              urbSubmit.TransferType = VUSB_TRANSFER_INTERRUPT then
        (if urbSubmit.Direction = VUSB_DIR_IN then backend.actualLength else 0)
      else 0
    let status := if result = 0 then VUSB_STATUS_SUCCESS else VUSB_STATUS_ERROR
    let r := SendUrbCompletion ctxSequence urbSubmit.DeviceId urbSubmit.UrbId
      status responseDataLength backend.data
    (result, r.1, r.2)

/-- The VUSB_CMD_SUBMIT_URB arm of ProcessServerMessage
(vusb_client_enhanced.c): hand the parsed submit message to
ClientUrbProcess.  The request header is available here but its
sequence is not forwarded anywhere on this path. -/
def ProcessSubmitUrbMessage (ctxSequence : Nat) (reqHeader : VUSB_HEADER)
    (urbSubmit : VUSB_URB_SUBMIT) (backend : BackendOutcome) :
    Int × Nat × VUSB_URB_COMPLETE :=
  ClientUrbProcess ctxSequence urbSubmit backend

/-- VusbServerHandleUrbComplete (vusb_server.c): translate a received
URB_COMPLETE message into the VUSB_URB_COMPLETION forwarded to
IOCTL_VUSB_COMPLETE_URB.  DeviceId, UrbId, Status and ActualLength pass
through unchanged (ActualLength in particular is not clamped);
SequenceNumber is the frame header's sequence. -/
def VusbServerHandleUrbComplete (urbComplete : VUSB_URB_COMPLETE)
    (headerSequence : Nat) : VUSB_URB_COMPLETION :=
  { DeviceId := urbComplete.DeviceId
    UrbId := urbComplete.UrbId
    SequenceNumber := headerSequence
    Status := urbComplete.Status
    ActualLength := urbComplete.ActualLength
    Data := urbComplete.Data.take urbComplete.ActualLength }

/-! Receive loops (vusb_server.c VusbClientThread,
vusb_client_enhanced.c ReceiveThread), modelled over the incoming TCP
byte stream.  Both loops read a 16-byte header, validate it, and read
Length payload bytes; they differ in how a failed validation is
handled. -/

/-- One message dispatched by a receive loop. -/
structure RecvMsg where
  Header : VUSB_HEADER
  Payload : List Nat
deriving DecidableEq

/-- Body of the server's VusbClientThread receive loop: a short header
read ends the loop; an invalid header BREAKS the loop; a payload length
above VUSB_MAX_PACKET_SIZE - 16 breaks; a short payload read breaks;
otherwise the message is dispatched and the loop continues.  Fuel bounds
the iteration count; the wrapper passes the stream length, which at
least 16 bytes consumed per step never exhausts. -/
def serverRecvGo : Nat → List Nat → List RecvMsg
  | 0, _ => []
  | fuel + 1, stream =>
    match decodeHeader stream with
    | none => []
    | some (header, rest) =>
      if !VusbValidateHeader header then []
      else if 0 < header.Length ∧
          VUSB_MAX_PACKET_SIZE - sizeof_VUSB_HEADER < header.Length then []
      else if rest.length < header.Length then []
      else { Header := header, Payload := rest.take header.Length } ::
        serverRecvGo fuel (rest.drop header.Length)

/-- VusbClientThread's receive loop (vusb_server.c) over a byte
stream: the list of messages it dispatches to
VusbServerProcessMessage. -/
def VusbClientThreadLoop (stream : List Nat) : List RecvMsg :=
  serverRecvGo stream.length stream

/-- Body of the client's ReceiveThread loop (vusb_client_enhanced.c):
identical to the server loop except that an invalid header CONTINUES
(only the 16 header bytes are discarded and the loop re-reads from the
following byte), and the payload bound is VUSB_MAX_PACKET_SIZE. -/
def clientRecvGo : Nat → List Nat → List RecvMsg
  | 0, _ => []
  | fuel + 1, stream =>
    match decodeHeader stream with
    | none => []
    | some (header, rest) =>
      if !VusbValidateHeader header then clientRecvGo fuel rest
      else if 0 < header.Length ∧ VUSB_MAX_PACKET_SIZE < header.Length then []
      else if rest.length < header.Length then []
      else { Header := header, Payload := rest.take header.Length } ::
        clientRecvGo fuel (rest.drop header.Length)

/-- ReceiveThread's loop (vusb_client_enhanced.c) over a byte stream:
the list of messages it dispatches to ProcessServerMessage. -/
def ReceiveThreadLoop (stream : List Nat) : List RecvMsg :=
  clientRecvGo stream.length stream

/-! Concrete states used to evaluate the models on specific inputs. -/

/-- A plain DeviceInfo for a vendor-specific test device. -/
def exInfo : VUSB_DEVICE_INFO :=
  { DeviceId := 5, VendorId := 0x1234, ProductId := 0x5678, DeviceClass := 0xFF
    DeviceSubClass := 0, DeviceProtocol := 0, Speed := 3
    NumConfigurations := 1, NumInterfaces := 1
    Manufacturer := [], Product := [], SerialNumber := [] }

/-- Driver entry for a pending bulk IN URB with id 7 on device 2. -/
def exEntryDev2Urb7 : VUSB_URB_ENTRY :=
  { UrbId := 7, SequenceNumber := 1, DeviceId := 2, HasRequest := true
    HasBuffer := true, EndpointAddress := 0x81
    TransferType := VUSB_TRANSFER_BULK, Direction := VUSB_DIR_IN
    TransferFlags := 0, TransferBufferLength := 64 }

/-- Driver entry for a pending bulk IN URB with the same id 7 but on
device 1. -/
def exEntryDev1Urb7 : VUSB_URB_ENTRY :=
  { UrbId := 7, SequenceNumber := 2, DeviceId := 1, HasRequest := true
    HasBuffer := true, EndpointAddress := 0x81
    TransferType := VUSB_TRANSFER_BULK, Direction := VUSB_DIR_IN
    TransferFlags := 0, TransferBufferLength := 64 }

/-- Driver state with devices 1 and 2 attached and the two colliding
URB id 7 entries pending, the device-2 entry at the list head (it was
queued second; VusbFindUrb scans from the head). -/
def exCtxTwoDevices : VUSB_DEVICE_CONTEXT :=
  { MaxDevices := 16, DeviceCount := 2
    Devices := some (mkVirtualDevice 0 exInfo []) ::
      some (mkVirtualDevice 1 exInfo []) :: List.replicate 14 none
    PendingUrbList := [exEntryDev2Urb7, exEntryDev1Urb7]
    NextUrbId := 7, NextSequence := 2 }

/-- A wire completion naming device 1, urb 7. -/
def exCompletionDev1Urb7 : VUSB_URB_COMPLETION :=
  { DeviceId := 1, UrbId := 7, SequenceNumber := 0
    Status := VUSB_STATUS_SUCCESS, ActualLength := 0, Data := [] }

/-- Driver entry for a pending bulk IN URB with id 9 on device 1. -/
def exEntryDev1Urb9 : VUSB_URB_ENTRY :=
  { UrbId := 9, SequenceNumber := 1, DeviceId := 1, HasRequest := true
    HasBuffer := true, EndpointAddress := 0x81
    TransferType := VUSB_TRANSFER_BULK, Direction := VUSB_DIR_IN
    TransferFlags := 0, TransferBufferLength := 64 }

/-- Driver state with only device 1 attached and its URB 9 pending. -/
def exCtxOneDevice : VUSB_DEVICE_CONTEXT :=
  { MaxDevices := 16, DeviceCount := 1
    Devices := some (mkVirtualDevice 0 exInfo []) :: List.replicate 15 none
    PendingUrbList := [exEntryDev1Urb9]
    NextUrbId := 9, NextSequence := 1 }

/-- A wire completion for device 1, urb 9, carrying no data. -/
def exCompletionDev1Urb9 : VUSB_URB_COMPLETION :=
  { DeviceId := 1, UrbId := 9, SequenceNumber := 0
    Status := VUSB_STATUS_SUCCESS, ActualLength := 0, Data := [] }

/-- Driver entry whose transfer buffer holds only 4 bytes. -/
def exEntrySmallBuf : VUSB_URB_ENTRY :=
  { UrbId := 3, SequenceNumber := 1, DeviceId := 1, HasRequest := true
    HasBuffer := true, EndpointAddress := 0x81
    TransferType := VUSB_TRANSFER_BULK, Direction := VUSB_DIR_IN
    TransferFlags := 0, TransferBufferLength := 4 }

/-- Driver state with device 1 attached and the 4-byte URB 3 pending. -/
def exCtxSmallBuf : VUSB_DEVICE_CONTEXT :=
  { MaxDevices := 16, DeviceCount := 1
    Devices := some (mkVirtualDevice 0 exInfo []) :: List.replicate 15 none
    PendingUrbList := [exEntrySmallBuf]
    NextUrbId := 3, NextSequence := 1 }

/-- A URB_COMPLETE wire message for urb 3 claiming 8 transferred bytes,
twice the submitted buffer length. -/
def exOversizeComplete : VUSB_URB_COMPLETE :=
  { Header := VusbInitHeader VUSB_CMD_URB_COMPLETE 28 11
    DeviceId := 1, UrbId := 3, Status := VUSB_STATUS_SUCCESS
    ActualLength := 8, ErrorCount := 0
    Data := [1, 2, 3, 4, 5, 6, 7, 8] }

/-- Well-formedness of one registry slot: an occupied slot i holds a
device whose DeviceId and PortNumber are both i + 1. -/
def slotConsistent (i : Nat) (s : Option VUSB_VIRTUAL_DEVICE) : Bool :=
  match s with
  | none => true
  | some d => decide (d.DeviceId = i + 1) && decide (d.PortNumber = i + 1)

/-- Well-formedness of the whole device array: 16 slots, each either
empty or holding the device with id and port slot + 1. -/
def DevicesInv (L : List (Option VUSB_VIRTUAL_DEVICE)) : Prop :=
  L.length = VUSB_MAX_DEVICES ∧
  ∀ i : Fin VUSB_MAX_DEVICES, slotConsistent i.val (L.getD i.val none) = true

/-- The registry invariant of the driver context: its device array is
well-formed. -/
def RegistryInv (ctx : VUSB_DEVICE_CONTEXT) : Prop :=
  DevicesInv ctx.Devices

instance (L : List (Option VUSB_VIRTUAL_DEVICE)) : Decidable (DevicesInv L) := by
  unfold DevicesInv
  infer_instance

instance (ctx : VUSB_DEVICE_CONTEXT) : Decidable (RegistryInv ctx) := by
  unfold RegistryInv
  infer_instance

/-- An all-zero setup packet (non-control transfers leave the slot
unused). -/
def exSetup : VUSB_SETUP_PACKET :=
  { bmRequestType := 0, bRequest := 0, wValue := 0, wIndex := 0, wLength := 0 }

/-- A pending bulk OUT URB with a 3-byte payload, as handed up by the
driver. -/
def exPendingOut : VUSB_PENDING_URB :=
  { DeviceId := 2, UrbId := 5, SequenceNumber := 9, EndpointAddress := 0x02
    TransferType := VUSB_TRANSFER_BULK, Direction := VUSB_DIR_OUT, Reserved := 0
    TransferFlags := 0, TransferBufferLength := 3, Interval := 0
    SetupPacket := exSetup, Data := [0xAA, 0xBB, 0xCC] }

/-- A SUBMIT_URB message for a bulk IN transfer of up to 64 bytes on
device 1, urb 7, as received by the client. -/
def exSubmitIn : VUSB_URB_SUBMIT :=
  { Header := VusbInitHeader VUSB_CMD_SUBMIT_URB 32 42
    DeviceId := 1, UrbId := 7, EndpointAddress := 0x81
    TransferType := VUSB_TRANSFER_BULK, Direction := VUSB_DIR_IN, Reserved := 0
    TransferFlags := 0, TransferBufferLength := 64, Interval := 0
    SetupPacket := exSetup }

/-- A backend run that finds the device open and transfers 8 bytes. -/
def exBackendOk : BackendOutcome :=
  { found := true, openOk := true, result := 0, actualLength := 8
    data := [0xDE, 0xAD, 0xBE, 0xEF, 0x00, 0x01, 0x02, 0x03] }

/-- Sixteen bytes whose magic field is zero: an invalid frame header. -/
def exBadHeaderBytes : List Nat :=
  encodeHeader { Magic := 0, Version := VUSB_PROTOCOL_VERSION
                 Command := VUSB_CMD_PING, Length := 0, Sequence := 5 }

/-- A well-formed PING frame with sequence 7. -/
def exPingFrame : List Nat :=
  encodeFrame (VusbInitHeader VUSB_CMD_PING 0 7) []

theorem decodeHeader_cons16 (b0 b1 b2 b3 b4 b5 b6 b7 b8 b9 b10 b11 b12 b13 b14 b15 : Nat)
    (rest : List Nat) :
    decodeHeader (b0 :: b1 :: b2 :: b3 :: b4 :: b5 :: b6 :: b7 ::
        b8 :: b9 :: b10 :: b11 :: b12 :: b13 :: b14 :: b15 :: rest) =
      some ({ Magic := b0 + 256 * b1 + 65536 * b2 + 16777216 * b3
              Version := b4 + 256 * b5
              Command := b6 + 256 * b7
              Length := b8 + 256 * b9 + 65536 * b10 + 16777216 * b11
              Sequence := b12 + 256 * b13 + 65536 * b14 + 16777216 * b15 }, rest) := rfl

theorem decodeHeader_encodeFrame (h : VUSB_HEADER) (payload : List Nat)
    (hm : h.Magic < 4294967296) (hv : h.Version < 65536) (hc : h.Command < 65536)
    (hl : h.Length < 4294967296) (hs : h.Sequence < 4294967296) :
    decodeHeader (encodeFrame h payload) = some (h, payload) := by
  obtain ⟨M, V, C, L, S⟩ := h
  simp only [] at hm hv hc hl hs
  simp only [encodeFrame, encodeHeader, le32, le16, List.cons_append, List.nil_append]
  rw [decodeHeader_cons16]
  simp only [Option.some.injEq, Prod.mk.injEq, VUSB_HEADER.mk.injEq, eq_self_iff_true, and_true]
  omega

/-- C1 frame round-trip, general form used by the claim theorem. -/
theorem initHeader_roundtrip (command length sequence : Nat) (payload : List Nat)
    (hc : command < 65536) (hl : length < 4294967296) (hs : sequence < 4294967296) :
    decodeHeader (encodeFrame (VusbInitHeader command length sequence) payload) =
      some (VusbInitHeader command length sequence, payload) := by
  apply decodeHeader_encodeFrame <;>
    simp [VusbInitHeader, VUSB_PROTOCOL_MAGIC, VUSB_PROTOCOL_VERSION] <;> omega

/-- C1: a frame built by VusbInitHeader (magic 0x56555342, version
0x0100, the given command, payload length and sequence) followed by the
packed little-endian payload bytes is accepted by VusbValidateHeader and
decodes back to exactly the same header fields and payload bytes. -/
theorem C1_framing_roundtrip (command length sequence : Nat) (payload : List Nat)
    (hc : command < 65536) (hl : length < 4294967296) (hs : sequence < 4294967296) :
    decodeHeader (encodeFrame (VusbInitHeader command length sequence) payload) =
      some (VusbInitHeader command length sequence, payload) ∧
    VusbValidateHeader (VusbInitHeader command length sequence) = true := by
  refine ⟨initHeader_roundtrip command length sequence payload hc hl hs, ?_⟩
  simp [VusbValidateHeader, VusbInitHeader]

/-- Witness for C1 at the SUBMIT_URB command with a concrete 3-byte
payload and sequence 7. -/
theorem C1_framing_roundtrip_witness :
    (0x0020 : Nat) < 65536 ∧ (3 : Nat) < 4294967296 ∧ (7 : Nat) < 4294967296 ∧
    (decodeHeader (encodeFrame (VusbInitHeader 0x0020 3 7) [0xDE, 0xAD, 0xBE]) =
        some (VusbInitHeader 0x0020 3 7, [0xDE, 0xAD, 0xBE]) ∧
      VusbValidateHeader (VusbInitHeader 0x0020 3 7) = true) :=
  ⟨by decide, by decide, by decide,
    C1_framing_roundtrip 0x0020 3 7 [0xDE, 0xAD, 0xBE] (by decide) (by decide) (by decide)⟩

theorem findRemove_none {α : Type} (key : α → Nat) (l : List α) (k : Nat)
    (h : ∀ x ∈ l, key x ≠ k) : findRemove key l k = (none, l) := by
  induction l with
  | nil => rfl
  | cons a rest ih =>
    simp only [findRemove]
    rw [if_neg (h a (List.mem_cons_self a rest))]
    rw [ih (fun x hx => h x (List.mem_cons_of_mem a hx))]

theorem findRemove_found {α : Type} (key : α → Nat) (l : List α) (e : α)
    (hmem : e ∈ l) (hd : l.Pairwise (fun a b => key a ≠ key b)) :
    ∃ l₁ l₂, l = l₁ ++ e :: l₂ ∧ findRemove key l (key e) = (some e, l₁ ++ l₂) ∧
      ∀ x ∈ l₁ ++ l₂, key x ≠ key e := by
  induction l with
  | nil => cases hmem
  | cons a rest ih =>
    rcases List.pairwise_cons.mp hd with ⟨hhead, htail⟩
    rcases List.mem_cons.mp hmem with he | he
    · subst he
      refine ⟨[], rest, rfl, ?_, ?_⟩
      · simp [findRemove]
      · intro x hx
        simp only [List.nil_append] at hx
        exact fun hkey => (hhead x hx) hkey.symm
    · have hne : key a ≠ key e := hhead e he
      obtain ⟨l₁, l₂, heq, hfr, hrest⟩ := ih he htail
      refine ⟨a :: l₁, l₂, by simp [heq], ?_, ?_⟩
      · simp only [findRemove]
        rw [if_neg hne, hfr]
        rfl
      · intro x hx
        rcases List.mem_cons.mp hx with hxa | hx2
        · subst hxa; exact hne
        · exact hrest x hx2

theorem findRemove_first {α : Type} (key : α → Nat) (l : List α) (k : Nat) :
    (findRemove key l k).1 = l.find? (fun e => key e == k) ∧
    (findRemove key l k).2 = l.eraseP (fun e => key e == k) := by
  induction l with
  | nil => exact ⟨rfl, rfl⟩
  | cons a rest ih =>
    by_cases hk : key a = k
    · constructor
      · simp [findRemove, hk, List.find?]
      · simp [findRemove, hk, List.eraseP_cons]
    · have hbeq : (key a == k) = false := by simp [hk]
      constructor
      · simp only [findRemove, if_neg hk, List.find?_cons, hbeq]
        exact ih.1
      · simp only [findRemove, if_neg hk, List.eraseP_cons, hbeq, cond_false]
        rw [ih.2]

/-- C2: for every (device, urb_id) pair the completion callback runs at
most once.  With the pending UrbIds pairwise distinct (the driver
assigns them from one monotone counter), the first completion for the
key removes the entry and completes it — the server returns 0 and sends
the driver a completion built from the removed node, the driver returns
STATUS_SUCCESS and fires the WDF completion exactly when a request is
attached, with the entry's device and urb ids; a second completion for
the same key finds nothing: ServerUrbComplete returns -1 leaving the
list unchanged, VusbHandleCompleteUrb returns STATUS_NOT_FOUND with the
state unchanged and completes nothing. -/
theorem C2_at_most_once_completion
    (pending : List SERVER_PENDING_URB) (e : SERVER_PENDING_URB)
    (st len st2 len2 : Nat) (data data2 : List Nat)
    (dctx : VUSB_DEVICE_CONTEXT) (de : VUSB_URB_ENTRY)
    (completion : VUSB_URB_COMPLETION)
    (hmem : e ∈ pending)
    (hdist : pending.Pairwise (fun a b => a.UrbId ≠ b.UrbId))
    (hdm : de ∈ dctx.PendingUrbList)
    (hdd : dctx.PendingUrbList.Pairwise (fun a b => a.UrbId ≠ b.UrbId))
    (hcu : completion.UrbId = de.UrbId) :
    (ServerUrbComplete pending e.UrbId st len data).1 = 0 ∧
    (ServerUrbComplete pending e.UrbId st len data).2.2 =
      some { DeviceId := e.DeviceId, UrbId := e.UrbId, SequenceNumber := 0,
             Status := st, ActualLength := len, Data := data.take len } ∧
    ServerUrbComplete (ServerUrbComplete pending e.UrbId st len data).2.1
        e.UrbId st2 len2 data2 =
      (-1, (ServerUrbComplete pending e.UrbId st len data).2.1, none) ∧
    (VusbHandleCompleteUrb dctx completion).2.1 = STATUS_SUCCESS ∧
    (VusbHandleCompleteUrb dctx completion).2.2.map WdfCompletionEvent.DeviceId =
      (if de.HasRequest then some de.DeviceId else none) ∧
    (VusbHandleCompleteUrb dctx completion).2.2.map WdfCompletionEvent.UrbId =
      (if de.HasRequest then some de.UrbId else none) ∧
    (VusbHandleCompleteUrb dctx completion).2.2.map WdfCompletionEvent.Information =
      (if de.HasRequest then some completion.ActualLength else none) ∧
    VusbHandleCompleteUrb (VusbHandleCompleteUrb dctx completion).1 completion =
      ((VusbHandleCompleteUrb dctx completion).1, STATUS_NOT_FOUND, none) := by
  obtain ⟨l₁, l₂, hleq, hfr, hnone⟩ :=
    findRemove_found SERVER_PENDING_URB.UrbId pending e hmem hdist
  obtain ⟨m₁, m₂, hmeq, hfr2, hnone2⟩ :=
    findRemove_found VUSB_URB_ENTRY.UrbId dctx.PendingUrbList de hdm hdd
  have hsv : ServerUrbComplete pending e.UrbId st len data =
      (0, l₁ ++ l₂,
        some { DeviceId := e.DeviceId, UrbId := e.UrbId, SequenceNumber := 0,
               Status := st, ActualLength := len, Data := data.take len }) := by
    simp only [ServerUrbComplete, hfr]
  have hd1 : VusbHandleCompleteUrb dctx completion =
      ({ dctx with PendingUrbList := m₁ ++ m₂ }, STATUS_SUCCESS,
        if de.HasRequest then
          some { DeviceId := de.DeviceId, UrbId := de.UrbId,
                 Status := if completion.Status = VUSB_STATUS_SUCCESS
                           then STATUS_SUCCESS else STATUS_UNSUCCESSFUL,
                 Information := completion.ActualLength,
                 CopiedBytes :=
                   if (decide (0 < completion.ActualLength) &&
                        decide (completion.ActualLength ≤ completion.Data.length)) = true ∧
                      0 < completion.ActualLength ∧ de.HasBuffer
                   then min completion.ActualLength de.TransferBufferLength else 0 }
        else none) := by
    simp only [VusbHandleCompleteUrb, VusbFindUrb, hcu, hfr2, VusbCompleteUrb]
  refine ⟨?_, ?_, ?_, ?_, ?_, ?_, ?_, ?_⟩
  · rw [hsv]
  · rw [hsv]
  · rw [hsv]
    simp only [ServerUrbComplete,
      findRemove_none SERVER_PENDING_URB.UrbId (l₁ ++ l₂) e.UrbId hnone]
  · rw [hd1]
  · rw [hd1]
    by_cases hr : de.HasRequest <;> simp [hr]
  · rw [hd1]
    by_cases hr : de.HasRequest <;> simp [hr]
  · rw [hd1]
    by_cases hr : de.HasRequest <;> simp [hr]
  · rw [hd1]
    have hnone3 : ∀ x ∈ m₁ ++ m₂, x.UrbId ≠ completion.UrbId := by
      rw [hcu]; exact hnone2
    simp only [VusbHandleCompleteUrb, VusbFindUrb,
      findRemove_none VUSB_URB_ENTRY.UrbId (m₁ ++ m₂) completion.UrbId hnone3]

/-- Witness for C2 on a one-entry server table (urb 7, device 1) and the
driver state with device 1 and its pending urb 9. -/
theorem C2_at_most_once_completion_witness :
    (ServerUrbComplete [{ UrbId := 7, DeviceId := 1, ClientDeviceId := 5, Client := 1 }]
        7 0 4 [9, 9, 9, 9]).1 = 0 ∧
    (ServerUrbComplete [{ UrbId := 7, DeviceId := 1, ClientDeviceId := 5, Client := 1 }]
        7 0 4 [9, 9, 9, 9]).2.2 =
      some { DeviceId := 1, UrbId := 7, SequenceNumber := 0,
             Status := 0, ActualLength := 4, Data := [9, 9, 9, 9].take 4 } ∧
    ServerUrbComplete
        (ServerUrbComplete [{ UrbId := 7, DeviceId := 1, ClientDeviceId := 5, Client := 1 }]
          7 0 4 [9, 9, 9, 9]).2.1 7 5 0 [] =
      (-1,
        (ServerUrbComplete [{ UrbId := 7, DeviceId := 1, ClientDeviceId := 5, Client := 1 }]
          7 0 4 [9, 9, 9, 9]).2.1, none) ∧
    (VusbHandleCompleteUrb exCtxOneDevice exCompletionDev1Urb9).2.1 = STATUS_SUCCESS ∧
    (VusbHandleCompleteUrb exCtxOneDevice exCompletionDev1Urb9).2.2.map
        WdfCompletionEvent.DeviceId =
      (if exEntryDev1Urb9.HasRequest then some exEntryDev1Urb9.DeviceId else none) ∧
    (VusbHandleCompleteUrb exCtxOneDevice exCompletionDev1Urb9).2.2.map
        WdfCompletionEvent.UrbId =
      (if exEntryDev1Urb9.HasRequest then some exEntryDev1Urb9.UrbId else none) ∧
    (VusbHandleCompleteUrb exCtxOneDevice exCompletionDev1Urb9).2.2.map
        WdfCompletionEvent.Information =
      (if exEntryDev1Urb9.HasRequest then some exCompletionDev1Urb9.ActualLength else none) ∧
    VusbHandleCompleteUrb (VusbHandleCompleteUrb exCtxOneDevice exCompletionDev1Urb9).1
        exCompletionDev1Urb9 =
      ((VusbHandleCompleteUrb exCtxOneDevice exCompletionDev1Urb9).1,
        STATUS_NOT_FOUND, none) :=
  C2_at_most_once_completion
    [{ UrbId := 7, DeviceId := 1, ClientDeviceId := 5, Client := 1 }]
    { UrbId := 7, DeviceId := 1, ClientDeviceId := 5, Client := 1 }
    0 4 5 0 [9, 9, 9, 9] []
    exCtxOneDevice exEntryDev1Urb9 exCompletionDev1Urb9
    (by decide) (by decide) (by decide) (by decide) (by decide)

/-- C4 counterexample: with two pending entries sharing urb id 7 —
device 2 at the head, device 1 behind it — a completion frame naming
device 1, urb 7 completes the DEVICE 2 entry and leaves the (device 1,
urb 7) entry in the table: matching ignores the device id, refuting the
claim that exactly the entry with both ids is removed. -/
theorem C4_counterexample :
    exCompletionDev1Urb7.DeviceId = 1 ∧ exCompletionDev1Urb7.UrbId = 7 ∧
    exEntryDev1Urb7.DeviceId = 1 ∧ exEntryDev1Urb7.UrbId = 7 ∧
    exEntryDev2Urb7.DeviceId = 2 ∧ exEntryDev2Urb7.UrbId = 7 ∧
    exCtxTwoDevices.PendingUrbList = [exEntryDev2Urb7, exEntryDev1Urb7] ∧
    (VusbHandleCompleteUrb exCtxTwoDevices exCompletionDev1Urb7).2.2.map
        WdfCompletionEvent.DeviceId = some 2 ∧
    (VusbHandleCompleteUrb exCtxTwoDevices exCompletionDev1Urb7).1.PendingUrbList =
      [exEntryDev1Urb7] := by
  decide

/-- C4 as the code implements it: an incoming URB_COMPLETE is matched
against the pending table by urb_id ALONE — VusbFindUrb returns the
first list entry whose UrbId matches and unlinks exactly that entry,
regardless of its device id, and ServerUrbComplete's list update is the
same first-match-by-urb-id removal; the frame's device id plays no part
in the lookup. -/
theorem C4_match_by_urbid_only (l : List VUSB_URB_ENTRY) (k : Nat)
    (pending : List SERVER_PENDING_URB) (st len : Nat) (data : List Nat) :
    (VusbFindUrb l k).1 = l.find? (fun e => e.UrbId == k) ∧
    (VusbFindUrb l k).2 = l.eraseP (fun e => e.UrbId == k) ∧
    (ServerUrbComplete pending k st len data).2.1 =
      (if (pending.find? (fun e => e.UrbId == k)).isSome
       then pending.eraseP (fun e => e.UrbId == k) else pending) := by
  refine ⟨(findRemove_first VUSB_URB_ENTRY.UrbId l k).1,
    (findRemove_first VUSB_URB_ENTRY.UrbId l k).2, ?_⟩
  have h1 := (findRemove_first SERVER_PENDING_URB.UrbId pending k).1
  have h2 := (findRemove_first SERVER_PENDING_URB.UrbId pending k).2
  rcases hfd : findRemove SERVER_PENDING_URB.UrbId pending k with ⟨o, rest⟩
  rw [hfd] at h1 h2
  cases o with
  | none =>
    simp only [ServerUrbComplete, hfd]
    rw [← h1]
    rfl
  | some curr =>
    simp only [ServerUrbComplete, hfd]
    rw [← h1]
    simp only [Option.isSome_some, if_true]
    exact h2

/-- C3: refuted by the code — detaching a device cancels nothing.
Device 1 holds pending URB 9; IOCTL_VUSB_UNPLUG_DEVICE succeeds and
clears the registry slot, yet the pending-URB list still contains the
entry, no completion was issued by the detach, and a URB_COMPLETE
arriving afterwards still fires the WDF completion callback for
device 1 — contradicting both halves of the claim. -/
theorem C3_detach_leaves_urb_pending :
    exEntryDev1Urb9.DeviceId = 1 ∧
    exCtxOneDevice.PendingUrbList = [exEntryDev1Urb9] ∧
    (VusbHandleUnplugDevice exCtxOneDevice 1).2 = STATUS_SUCCESS ∧
    (VusbHandleUnplugDevice exCtxOneDevice 1).1.Devices.getD 0 none = none ∧
    (VusbHandleUnplugDevice exCtxOneDevice 1).1.PendingUrbList = [exEntryDev1Urb9] ∧
    (VusbHandleCompleteUrb (VusbHandleUnplugDevice exCtxOneDevice 1).1
        exCompletionDev1Urb9).2.2.map WdfCompletionEvent.DeviceId = some 1 := by
  decide

/-- C9: refuted by the code — the completion path does not clamp
actual_length.  URB 3 was submitted with a 4-byte buffer; a URB_COMPLETE
claiming 8 bytes passes through VusbServerHandleUrbComplete unchanged
and the driver completes the WDF request reporting Information = 8 while
copying only min(8, 4) = 4 bytes into the buffer. -/
theorem C9_actual_length_not_clamped :
    exEntrySmallBuf.TransferBufferLength = 4 ∧
    exOversizeComplete.ActualLength = 8 ∧
    (VusbServerHandleUrbComplete exOversizeComplete 11).ActualLength = 8 ∧
    exCtxSmallBuf.PendingUrbList = [exEntrySmallBuf] ∧
    (VusbHandleCompleteUrb exCtxSmallBuf
        (VusbServerHandleUrbComplete exOversizeComplete 11)).2.2 =
      some { DeviceId := 1, UrbId := 3, Status := STATUS_SUCCESS,
             Information := 8, CopiedBytes := 4 } := by
  decide

theorem countP_isSome_all (l : List (Option VUSB_VIRTUAL_DEVICE))
    (h : ∀ x ∈ l, x.isSome = true) :
    l.countP (fun s => s.isSome) = l.length := by
  induction l with
  | nil => rfl
  | cons a rest ih =>
    rw [List.countP_cons, ih (fun x hx => h x (List.mem_cons_of_mem _ hx))]
    have ha := h a (List.mem_cons_self _ _)
    simp [ha]

theorem vusbSlotScan_all_some (l : List (Option VUSB_VIRTUAL_DEVICE))
    (info : VUSB_DEVICE_INFO) (descriptors : List Nat) :
    (∀ x ∈ l, x.isSome = true) → ∀ s : Nat,
      vusbSlotScan l info descriptors s = none := by
  induction l with
  | nil => intro h s; rfl
  | cons a rest ih =>
    intro h s
    cases a with
    | none => exact absurd (h none (List.mem_cons_self _ _)) (by simp)
    | some d =>
      simp only [vusbSlotScan]
      rw [ih (fun x hx => h x (List.mem_cons_of_mem _ hx)) (s + 1)]

theorem vusbSlotScan_prefix (l₁ : List (Option VUSB_VIRTUAL_DEVICE))
    (info : VUSB_DEVICE_INFO) (descriptors : List Nat) :
    (∀ x ∈ l₁, x.isSome = true) →
    ∀ (l₂ : List (Option VUSB_VIRTUAL_DEVICE)) (s : Nat),
      vusbSlotScan (l₁ ++ none :: l₂) info descriptors s =
        some (l₁ ++ some (mkVirtualDevice (s + l₁.length) info descriptors) :: l₂,
          s + l₁.length + 1) := by
  induction l₁ with
  | nil =>
    intro h l₂ s
    simp only [List.nil_append, vusbSlotScan, List.length_nil, Nat.add_zero]
  | cons a rest ih =>
    intro h l₂ s
    cases a with
    | none => exact absurd (h none (List.mem_cons_self _ _)) (by simp)
    | some d =>
      have harith : s + 1 + rest.length = s + (rest.length + 1) := by omega
      simp only [List.cons_append, vusbSlotScan, List.append_eq]
      rw [ih (fun x hx => h x (List.mem_cons_of_mem _ hx)) l₂ (s + 1)]
      simp only [List.length_cons, harith]

/-- C5: with the registry well-formed (16 slots, DeviceCount counting
the occupied ones), an attach when a slot is free stores the new device
in the lowest free slot — every occupied slot left as it was — bumps the
count, and returns local id = slot index + 1 with STATUS_SUCCESS; when
every slot is occupied the attach fails with STATUS_TOO_MANY_NODES and
the registry is unchanged. -/
theorem C5_attach_lowest_free_slot (ctx : VUSB_DEVICE_CONTEXT)
    (info : VUSB_DEVICE_INFO) (descriptors : List Nat)
    (hmax : ctx.MaxDevices = VUSB_MAX_DEVICES)
    (hlen : ctx.Devices.length = VUSB_MAX_DEVICES)
    (hcount : ctx.DeviceCount = ctx.Devices.countP (fun s => s.isSome)) :
    (∀ l₁ l₂, ctx.Devices = l₁ ++ none :: l₂ → (∀ x ∈ l₁, x.isSome = true) →
        VusbCreateVirtualDevice ctx info descriptors =
          ({ ctx with
               Devices := l₁ ++ some (mkVirtualDevice l₁.length info descriptors) :: l₂,
               DeviceCount := ctx.DeviceCount + 1 },
            STATUS_SUCCESS, l₁.length + 1)) ∧
    ((∀ x ∈ ctx.Devices, x.isSome = true) →
        VusbCreateVirtualDevice ctx info descriptors = (ctx, STATUS_TOO_MANY_NODES, 0)) := by
  constructor
  · intro l₁ l₂ hdev hocc
    have hc1 : (l₁ ++ none :: l₂).countP (fun s => s.isSome) ≤ l₁.length + l₂.length := by
      rw [List.countP_append, List.countP_cons]
      have hb1 := List.countP_le_length (l := l₁) (p := fun s : Option VUSB_VIRTUAL_DEVICE => s.isSome)
      have hb2 := List.countP_le_length (l := l₂) (p := fun s : Option VUSB_VIRTUAL_DEVICE => s.isSome)
      simp only [Option.isSome_none, Bool.false_eq_true, if_false, Nat.add_zero]
      omega
    have hlen2 : (l₁ ++ none :: l₂).length = l₁.length + l₂.length + 1 := by
      simp only [List.length_append, List.length_cons]
      omega
    rw [hdev] at hlen hcount
    have hlt : ¬ ctx.MaxDevices ≤ ctx.DeviceCount := by
      rw [hmax, hcount]
      rw [hlen2] at hlen
      simp only [VUSB_MAX_DEVICES] at hlen ⊢
      omega
    simp only [VusbCreateVirtualDevice, if_neg hlt]
    rw [hdev, vusbSlotScan_prefix l₁ info descriptors hocc l₂ 0]
    simp only [Nat.zero_add]
  · intro hall
    have hfull : ctx.MaxDevices ≤ ctx.DeviceCount := by
      rw [hmax, hcount, countP_isSome_all ctx.Devices hall, hlen]
    simp only [VusbCreateVirtualDevice, if_pos hfull]

/-- Witness for C5: the registry with only slot 0 occupied attaches into
slot 1 and returns local id 2. -/
theorem C5_attach_lowest_free_slot_witness :
    VusbCreateVirtualDevice exCtxOneDevice exInfo [] =
      ({ exCtxOneDevice with
           Devices := [some (mkVirtualDevice 0 exInfo [])] ++
             some (mkVirtualDevice 1 exInfo []) :: List.replicate 14 none,
           DeviceCount := 2 }, STATUS_SUCCESS, 2) :=
  (C5_attach_lowest_free_slot exCtxOneDevice exInfo [] (by decide) (by decide)
      (by decide)).1
    [some (mkVirtualDevice 0 exInfo [])] (List.replicate 14 none) (by decide) (by decide)

theorem getD_append_cons_ne (l₁ l₂ : List (Option VUSB_VIRTUAL_DEVICE))
    (a b : Option VUSB_VIRTUAL_DEVICE) (i : Nat) (hne : i ≠ l₁.length) :
    (l₁ ++ a :: l₂).getD i none = (l₁ ++ b :: l₂).getD i none := by
  induction l₁ generalizing i with
  | nil =>
    cases i with
    | zero => exact absurd rfl hne
    | succ j => simp [List.getD_cons_succ]
  | cons x rest ih =>
    cases i with
    | zero => simp [List.getD_cons_zero]
    | succ j =>
      simp only [List.cons_append, List.getD_cons_succ]
      exact ih j (fun hj => hne (by simp [hj, List.length_cons]))

theorem getD_append_len (l₁ l₂ : List (Option VUSB_VIRTUAL_DEVICE))
    (a : Option VUSB_VIRTUAL_DEVICE) :
    (l₁ ++ a :: l₂).getD l₁.length none = a := by
  induction l₁ with
  | nil => simp [List.getD_cons_zero]
  | cons x rest ih =>
    simp only [List.cons_append, List.length_cons, List.getD_cons_succ]
    exact ih

theorem getD_set_ne (l : List (Option VUSB_VIRTUAL_DEVICE)) (i j : Nat)
    (a : Option VUSB_VIRTUAL_DEVICE) (h : i ≠ j) :
    (l.set i a).getD j none = l.getD j none := by
  induction l generalizing i j with
  | nil => simp [List.set]
  | cons x rest ih =>
    cases i with
    | zero =>
      cases j with
      | zero => exact absurd rfl h
      | succ k => simp [List.set, List.getD_cons_succ]
    | succ i2 =>
      cases j with
      | zero => simp [List.set, List.getD_cons_zero]
      | succ k =>
        simp only [List.set, List.getD_cons_succ]
        exact ih i2 k (fun he => h (by rw [he]))

theorem getD_set_self (l : List (Option VUSB_VIRTUAL_DEVICE)) (i : Nat)
    (a : Option VUSB_VIRTUAL_DEVICE) (h : i < l.length) :
    (l.set i a).getD i none = a := by
  induction l generalizing i with
  | nil => simp at h
  | cons x rest ih =>
    cases i with
    | zero => simp [List.set]
    | succ j =>
      simp only [List.set, List.getD_cons_succ]
      exact ih j (by simp only [List.length_cons] at h; omega)

theorem exists_first_none (l : List (Option VUSB_VIRTUAL_DEVICE)) :
    (∀ x ∈ l, x.isSome = true) ∨
    ∃ l₁ l₂, (∀ x ∈ l₁, x.isSome = true) ∧ l = l₁ ++ none :: l₂ := by
  induction l with
  | nil =>
    left
    intro x hx
    cases hx
  | cons a rest ih =>
    cases a with
    | none =>
      right
      refine ⟨[], rest, ?_, rfl⟩
      intro x hx
      cases hx
    | some d =>
      rcases ih with hall | ⟨l₁, l₂, hocc, heq⟩
      · left
        intro x hx
        rcases List.mem_cons.mp hx with h1 | h2
        · subst h1; rfl
        · exact hall x h2
      · right
        refine ⟨some d :: l₁, l₂, ?_, ?_⟩
        · intro x hx
          rcases List.mem_cons.mp hx with h1 | h2
          · subst h1; rfl
          · exact hocc x h2
        · rw [List.cons_append, heq]

theorem DevicesInv_insert (l₁ l₂ : List (Option VUSB_VIRTUAL_DEVICE))
    (info : VUSB_DEVICE_INFO) (descriptors : List Nat)
    (hinv : DevicesInv (l₁ ++ none :: l₂)) :
    DevicesInv (l₁ ++ some (mkVirtualDevice l₁.length info descriptors) :: l₂) := by
  obtain ⟨hlen, hslots⟩ := hinv
  constructor
  · have hl : (l₁ ++ some (mkVirtualDevice l₁.length info descriptors) :: l₂).length =
        (l₁ ++ none :: l₂).length := by simp
    rw [hl]
    exact hlen
  · intro i
    by_cases hi : i.val = l₁.length
    · rw [hi, getD_append_len]
      simp [slotConsistent, mkVirtualDevice]
    · rw [getD_append_cons_ne l₁ l₂ (some (mkVirtualDevice l₁.length info descriptors))
        none i.val hi]
      exact hslots i

theorem DevicesInv_set_none (L : List (Option VUSB_VIRTUAL_DEVICE)) (k : Nat)
    (hk : k < L.length) (hinv : DevicesInv L) : DevicesInv (L.set k none) := by
  obtain ⟨hlen, hslots⟩ := hinv
  constructor
  · rw [List.length_set]
    exact hlen
  · intro i
    by_cases hik : i.val = k
    · rw [hik, getD_set_self L k none hk]
      rfl
    · rw [getD_set_ne L k i.val none (fun he => hik he.symm)]
      exact hslots i

/-- C10: registry slot invariant.  The freshly initialised context
satisfies it; VusbCreateVirtualDevice and VusbDestroyVirtualDevice
preserve it (every slot s is empty or holds a device with DeviceId =
PortNumber = s + 1); and under it VusbFindDevice returns nothing or a
device whose DeviceId equals the id looked up. -/
theorem C10_registry_invariant :
    RegistryInv VusbDeviceContextInit ∧
    (∀ ctx info descriptors, RegistryInv ctx →
        RegistryInv (VusbCreateVirtualDevice ctx info descriptors).1) ∧
    (∀ ctx deviceId, RegistryInv ctx →
        RegistryInv (VusbDestroyVirtualDevice ctx deviceId).1) ∧
    (∀ ctx deviceId d, RegistryInv ctx → VusbFindDevice ctx deviceId = some d →
        d.DeviceId = deviceId) := by
  refine ⟨by decide, ?_, ?_, ?_⟩
  · intro ctx info descriptors hinv
    obtain ⟨hlen, hslots⟩ := hinv
    by_cases hfull : ctx.MaxDevices ≤ ctx.DeviceCount
    · have hres : (VusbCreateVirtualDevice ctx info descriptors).1 = ctx := by
        simp only [VusbCreateVirtualDevice, if_pos hfull]
      rw [hres]
      exact ⟨hlen, hslots⟩
    · rcases exists_first_none ctx.Devices with hall | ⟨l₁, l₂, hocc, heq⟩
      · have hres : (VusbCreateVirtualDevice ctx info descriptors).1 = ctx := by
          simp only [VusbCreateVirtualDevice, if_neg hfull,
            vusbSlotScan_all_some ctx.Devices info descriptors hall 0]
        rw [hres]
        exact ⟨hlen, hslots⟩
      · have hres : (VusbCreateVirtualDevice ctx info descriptors).1 =
            { ctx with
                Devices := l₁ ++ some (mkVirtualDevice l₁.length info descriptors) :: l₂,
                DeviceCount := ctx.DeviceCount + 1 } := by
          simp only [VusbCreateVirtualDevice, if_neg hfull, heq,
            vusbSlotScan_prefix l₁ info descriptors hocc l₂ 0, Nat.zero_add]
        rw [hres]
        have hinv2 : DevicesInv (l₁ ++ none :: l₂) := by
          rw [← heq]
          exact ⟨hlen, hslots⟩
        exact DevicesInv_insert l₁ l₂ info descriptors hinv2
  · intro ctx deviceId hinv
    obtain ⟨hlen, hslots⟩ := hinv
    by_cases hid : deviceId = 0 ∨ VUSB_MAX_DEVICES < deviceId
    · have hres : (VusbDestroyVirtualDevice ctx deviceId).1 = ctx := by
        simp only [VusbDestroyVirtualDevice, if_pos hid]
      rw [hres]
      exact ⟨hlen, hslots⟩
    · cases hslot : ctx.Devices.getD (deviceId - 1) none with
      | none =>
        have hres : (VusbDestroyVirtualDevice ctx deviceId).1 = ctx := by
          simp only [VusbDestroyVirtualDevice, if_neg hid, hslot]
        rw [hres]
        exact ⟨hlen, hslots⟩
      | some vdev =>
        have hres : (VusbDestroyVirtualDevice ctx deviceId).1 =
            { ctx with Devices := ctx.Devices.set (deviceId - 1) none,
                       DeviceCount := ctx.DeviceCount - 1 } := by
          simp only [VusbDestroyVirtualDevice, if_neg hid, hslot]
        rw [hres]
        have hbound : deviceId - 1 < ctx.Devices.length := by
          push_neg at hid
          rw [hlen]
          simp only [VUSB_MAX_DEVICES] at *
          omega
        exact DevicesInv_set_none ctx.Devices (deviceId - 1) hbound ⟨hlen, hslots⟩
  · intro ctx deviceId d hinv hfind
    obtain ⟨hlen, hslots⟩ := hinv
    unfold VusbFindDevice at hfind
    by_cases hid : deviceId = 0 ∨ VUSB_MAX_DEVICES < deviceId
    · rw [if_pos hid] at hfind
      cases hfind
    · rw [if_neg hid] at hfind
      push_neg at hid
      have hbound : deviceId - 1 < VUSB_MAX_DEVICES := by
        simp only [VUSB_MAX_DEVICES] at *
        omega
      have hcons := hslots ⟨deviceId - 1, hbound⟩
      rw [hfind] at hcons
      simp only [slotConsistent, Bool.and_eq_true, decide_eq_true_eq] at hcons
      have h0 : deviceId ≠ 0 := hid.1
      omega

/-- Witness for C10 on the registry holding only device 1: the invariant
holds initially, is kept by an attach and by a destroy, and the lookup of
id 1 returns the device with DeviceId 1. -/
theorem C10_registry_invariant_witness :
    RegistryInv VusbDeviceContextInit ∧
    RegistryInv (VusbCreateVirtualDevice exCtxOneDevice exInfo []).1 ∧
    RegistryInv (VusbDestroyVirtualDevice exCtxOneDevice 1).1 ∧
    (mkVirtualDevice 0 exInfo []).DeviceId = 1 :=
  ⟨C10_registry_invariant.1,
   C10_registry_invariant.2.1 exCtxOneDevice exInfo [] (by decide),
   C10_registry_invariant.2.2.1 exCtxOneDevice 1 (by decide),
   C10_registry_invariant.2.2.2 exCtxOneDevice 1 (mkVirtualDevice 0 exInfo [])
     (by decide) (by decide)⟩

/-- C6: the SUBMIT_URB frame carries a trailing data_out block of
exactly buf_len bytes iff direction = OUT and buf_len > 0; otherwise
(IN, or OUT with empty buffer) the frame is the UrbSubmitHeader alone,
so the wire payload length is 32 for IN and 32 + buf_len for OUT with
data; the driver's pending-response buffer obeys the same rule with its
own struct size. -/
theorem C6_out_data_iff (p : VUSB_PENDING_URB) (e : VUSB_URB_ENTRY) (bufferSize : Nat)
    (hdata : p.Data.length = p.TransferBufferLength) :
    ((ServerUrbForwardFrame p).2.1 =
      if p.Direction = VUSB_DIR_OUT ∧ 0 < p.TransferBufferLength
      then p.Data else []) ∧
    ((ServerUrbForwardFrame p).2.1.length =
      if p.Direction = VUSB_DIR_OUT ∧ 0 < p.TransferBufferLength
      then p.TransferBufferLength else 0) ∧
    ((ServerUrbForwardFrame p).1.Header.Length =
      (sizeof_VUSB_URB_SUBMIT - sizeof_VUSB_HEADER) +
        (if p.Direction = VUSB_DIR_OUT ∧ 0 < p.TransferBufferLength
         then p.TransferBufferLength else 0)) ∧
    ((VusbUrbBuildPendingResponse e bufferSize).2 =
      sizeof_VUSB_PENDING_URB +
        (if e.Direction = VUSB_DIR_OUT ∧ 0 < e.TransferBufferLength
         then e.TransferBufferLength else 0)) := by
  have h4 : (VusbUrbBuildPendingResponse e bufferSize).2 =
      sizeof_VUSB_PENDING_URB +
        (if e.Direction = VUSB_DIR_OUT ∧ 0 < e.TransferBufferLength
         then e.TransferBufferLength else 0) := by
    simp only [VusbUrbBuildPendingResponse]
    split <;> split <;> rfl
  by_cases hc : p.Direction = VUSB_DIR_OUT ∧ 0 < p.TransferBufferLength
  · refine ⟨?_, ?_, ?_, h4⟩
    · simp only [ServerUrbForwardFrame, if_pos hc]
      rw [← hdata, List.take_length]
    · simp only [ServerUrbForwardFrame, if_pos hc, List.length_take, hdata, Nat.min_self]
    · simp only [ServerUrbForwardFrame, if_pos hc, VusbInitHeader,
        sizeof_VUSB_URB_SUBMIT, sizeof_VUSB_HEADER]
      omega
  · refine ⟨?_, ?_, ?_, h4⟩
    · simp only [ServerUrbForwardFrame, if_neg hc]
    · simp only [ServerUrbForwardFrame, if_neg hc, List.length_nil]
    · simp only [ServerUrbForwardFrame, if_neg hc, VusbInitHeader,
        sizeof_VUSB_URB_SUBMIT, sizeof_VUSB_HEADER]

/-- Witness for C6 on a 3-byte bulk OUT pending URB and an IN entry with
a 100-byte user buffer. -/
theorem C6_out_data_iff_witness :
    ((ServerUrbForwardFrame exPendingOut).2.1 =
      if exPendingOut.Direction = VUSB_DIR_OUT ∧ 0 < exPendingOut.TransferBufferLength
      then exPendingOut.Data else []) ∧
    ((ServerUrbForwardFrame exPendingOut).2.1.length =
      if exPendingOut.Direction = VUSB_DIR_OUT ∧ 0 < exPendingOut.TransferBufferLength
      then exPendingOut.TransferBufferLength else 0) ∧
    ((ServerUrbForwardFrame exPendingOut).1.Header.Length =
      (sizeof_VUSB_URB_SUBMIT - sizeof_VUSB_HEADER) +
        (if exPendingOut.Direction = VUSB_DIR_OUT ∧ 0 < exPendingOut.TransferBufferLength
         then exPendingOut.TransferBufferLength else 0)) ∧
    ((VusbUrbBuildPendingResponse exEntryDev1Urb9 100).2 =
      sizeof_VUSB_PENDING_URB +
        (if exEntryDev1Urb9.Direction = VUSB_DIR_OUT ∧
            0 < exEntryDev1Urb9.TransferBufferLength
         then exEntryDev1Urb9.TransferBufferLength else 0)) :=
  C6_out_data_iff exPendingOut exEntryDev1Urb9 100 (by decide)

/-- C7 counterexample: the URB_COMPLETE answering a SUBMIT_URB does not
echo the request's sequence.  A client whose own counter is 0 receives a
SUBMIT_URB with header sequence 42 and (with the backend succeeding)
emits the completion with header sequence 1. -/
theorem C7_counterexample :
    exSubmitIn.Header.Sequence = 42 ∧
    (ProcessSubmitUrbMessage 0 exSubmitIn.Header exSubmitIn exBackendOk).2.2.Header.Sequence = 1 ∧
    (1 : Nat) ≠ 42 := by
  decide

/-- C7 as the code implements it: CONNECT_RESP, PONG, the attach
response and the detach acknowledgement all carry the sequence of the
triggering request, but the URB_COMPLETE answering a SUBMIT_URB carries
the client's own pre-incremented counter — the request header plays no
role at all in what the completion path emits. -/
theorem C7_sequence_echo (s sid : Nat) (h h2 : VUSB_HEADER) (result : Int)
    (deviceId ctxSequence : Nat) (submit : VUSB_URB_SUBMIT) (backend : BackendOutcome) :
    (VusbServerSendPong s).Sequence = s ∧
    (VusbServerHandleConnect sid h).Header.Sequence = h.Sequence ∧
    (VusbServerAttachResponse result deviceId h).Header.Sequence = h.Sequence ∧
    (VusbServerDetachAck h).Sequence = h.Sequence ∧
    (ProcessSubmitUrbMessage ctxSequence h submit backend).2.2.Header.Sequence =
      ctxSequence + 1 ∧
    ProcessSubmitUrbMessage ctxSequence h submit backend =
      ProcessSubmitUrbMessage ctxSequence h2 submit backend := by
  refine ⟨rfl, rfl, rfl, rfl, ?_, rfl⟩
  simp only [ProcessSubmitUrbMessage, ClientUrbProcess, SendUrbCompletion, VusbInitHeader]
  split_ifs <;> rfl

theorem decodeHeader_some_length (s : List Nat) :
    ∀ (h : VUSB_HEADER) (r : List Nat), decodeHeader s = some (h, r) →
      s.length = r.length + 16 := by
  unfold decodeHeader
  split
  · intro h r hd
    simp only [Option.some.injEq, Prod.mk.injEq] at hd
    obtain ⟨-, hr⟩ := hd
    subst hr
    simp only [List.length_cons]
  · intro h r hd
    cases hd

theorem clientRecvGo_congr (f₁ : Nat) :
    ∀ (f₂ : Nat) (s : List Nat), s.length ≤ f₁ → s.length ≤ f₂ →
      clientRecvGo f₁ s = clientRecvGo f₂ s := by
  induction f₁ with
  | zero =>
    intro f₂ s h₁ h₂
    have hs : s = [] := List.eq_nil_of_length_eq_zero (Nat.le_zero.mp h₁)
    subst hs
    cases f₂ with
    | zero => rfl
    | succ f₂ => rfl
  | succ f₁ ih =>
    intro f₂ s h₁ h₂
    cases f₂ with
    | zero =>
      have hs : s = [] := List.eq_nil_of_length_eq_zero (Nat.le_zero.mp h₂)
      subst hs
      rfl
    | succ f₂ =>
      simp only [clientRecvGo]
      cases hd : decodeHeader s with
      | none => rfl
      | some pr =>
        obtain ⟨h, r⟩ := pr
        have hlen := decodeHeader_some_length s h r hd
        dsimp only
        split_ifs with hA hB hC
        · exact ih f₂ r (by omega) (by omega)
        · rfl
        · rfl
        · have hdrop : (r.drop h.Length).length ≤ r.length := by
            rw [List.length_drop]
            omega
          rw [ih f₂ (r.drop h.Length) (by omega) (by omega)]

theorem serverRecvGo_invalid (fuel : Nat) (s r : List Nat) (h : VUSB_HEADER)
    (hd : decodeHeader s = some (h, r)) (hv : VusbValidateHeader h = false) :
    serverRecvGo (fuel + 1) s = [] := by
  simp only [serverRecvGo, hd, hv, Bool.not_false, if_true]

theorem clientRecvGo_invalid (fuel : Nat) (s r : List Nat) (h : VUSB_HEADER)
    (hd : decodeHeader s = some (h, r)) (hv : VusbValidateHeader h = false) :
    clientRecvGo (fuel + 1) s = clientRecvGo fuel r := by
  simp only [clientRecvGo, hd, hv, Bool.not_false, if_true]

theorem serverRecvGo_oversize (fuel : Nat) (s r : List Nat) (h : VUSB_HEADER)
    (hd : decodeHeader s = some (h, r)) (hv : VusbValidateHeader h = true)
    (h0 : 0 < h.Length) (hbig : VUSB_MAX_PACKET_SIZE - sizeof_VUSB_HEADER < h.Length) :
    serverRecvGo (fuel + 1) s = [] := by
  simp only [serverRecvGo, hd, hv, Bool.not_true, Bool.false_eq_true, if_false]
  exact if_pos ⟨h0, hbig⟩

theorem clientRecvGo_oversize (fuel : Nat) (s r : List Nat) (h : VUSB_HEADER)
    (hd : decodeHeader s = some (h, r)) (hv : VusbValidateHeader h = true)
    (h0 : 0 < h.Length) (hbig : VUSB_MAX_PACKET_SIZE < h.Length) :
    clientRecvGo (fuel + 1) s = [] := by
  simp only [clientRecvGo, hd, hv, Bool.not_true, Bool.false_eq_true, if_false]
  exact if_pos ⟨h0, hbig⟩

set_option maxHeartbeats 1000000 in
/-- C8 counterexample: a frame with magic 0 followed by a valid PING
frame.  The server's receive loop dispatches nothing — the framing error
is fatal there — but the client's receive loop skips the bad header and
still dispatches the PING, so on the client's path the connection keeps
processing frames after a magic/version mismatch. -/
theorem C8_counterexample :
    VusbValidateHeader
      { Magic := 0
        Version := VUSB_PROTOCOL_VERSION
        Command := VUSB_CMD_PING
        Length := 0
        Sequence := 5 } = false ∧
    VusbClientThreadLoop (exBadHeaderBytes ++ exPingFrame) = [] ∧
    ReceiveThreadLoop (exBadHeaderBytes ++ exPingFrame) =
      [{ Header := VusbInitHeader VUSB_CMD_PING 0 7, Payload := [] }] := by
  decide

/-- C8 as the code implements it: on the server's receive path a header
whose magic or version mismatches and an oversized declared payload
length are both fatal — no further frame from that socket is dispatched.
On the client's receive path an oversized payload length is fatal too,
but a magic/version mismatch merely discards the 16 header bytes and the
loop continues with the following bytes of the stream. -/
theorem C8_framing_error_disposition (s : List Nat) (h : VUSB_HEADER)
    (rest : List Nat) (hdec : decodeHeader s = some (h, rest)) :
    (VusbValidateHeader h = false →
      VusbClientThreadLoop s = [] ∧ ReceiveThreadLoop s = ReceiveThreadLoop rest) ∧
    (VusbValidateHeader h = true → 0 < h.Length →
      VUSB_MAX_PACKET_SIZE - sizeof_VUSB_HEADER < h.Length →
      VusbClientThreadLoop s = []) ∧
    (VusbValidateHeader h = true → 0 < h.Length → VUSB_MAX_PACKET_SIZE < h.Length →
      ReceiveThreadLoop s = []) := by
  have hlen := decodeHeader_some_length s h rest hdec
  refine ⟨?_, ?_, ?_⟩
  · intro hv
    constructor
    · unfold VusbClientThreadLoop
      rw [hlen]
      exact serverRecvGo_invalid (rest.length + 15) s rest h hdec hv
    · unfold ReceiveThreadLoop
      rw [hlen]
      have hstep : clientRecvGo (rest.length + 16) s = clientRecvGo (rest.length + 15) rest :=
        clientRecvGo_invalid (rest.length + 15) s rest h hdec hv
      rw [hstep]
      exact clientRecvGo_congr (rest.length + 15) rest.length rest (by omega) (by omega)
  · intro hv h0 hbig
    unfold VusbClientThreadLoop
    rw [hlen]
    exact serverRecvGo_oversize (rest.length + 15) s rest h hdec hv h0 hbig
  · intro hv h0 hbig
    unfold ReceiveThreadLoop
    rw [hlen]
    exact clientRecvGo_oversize (rest.length + 15) s rest h hdec hv h0 hbig

set_option maxHeartbeats 1000000 in
/-- Witness for C8 on the magic-0 header followed by a PING frame: the
server loop dispatches nothing while the client loop continues exactly
as if the stream had started at the PING. -/
theorem C8_framing_error_disposition_witness :
    VusbClientThreadLoop (exBadHeaderBytes ++ exPingFrame) = [] ∧
    ReceiveThreadLoop (exBadHeaderBytes ++ exPingFrame) = ReceiveThreadLoop exPingFrame :=
  (C8_framing_error_disposition (exBadHeaderBytes ++ exPingFrame)
      { Magic := 0
        Version := VUSB_PROTOCOL_VERSION
        Command := VUSB_CMD_PING
        Length := 0
        Sequence := 5 }
      exPingFrame (by decide)).1 (by decide)

end Vusb
